import Mathlib

/-!
Verification of the Risk Scoring & Anomaly Detection Engine
(`src/modules/customer_profiler.py`, `src/modules/anomaly_detector.py`,
`src/modules/ml_predictor.py`) against its natural-language specification.

The Python modules are shallowly embedded below: data frames become lists of
records, pandas column arithmetic becomes list maps/filters/folds, machine
floats become `ℚ` (the numeric `log1p` is kept as an explicit parameter since
no claim depends on its value), and fallible operations return `Option`.
-/

namespace AML

/-- A raw transaction record, one row of the input data frame.
`Time` is embedded as the parsed hour/minute pair (`pd.to_datetime(...).dt.hour`),
`Date` as an opaque day key plus the derived weekday. -/
structure Transaction where
  hour : ℕ
  minute : ℕ
  weekday : ℕ
  date : String
  senderAccount : ℕ
  receiverAccount : ℕ
  amount : ℚ
  paymentCurrency : String
  receivedCurrency : String
  senderLoc : String
  receiverLoc : String
  paymentType : String
  isLaundering : Bool
  deriving DecidableEq, Repr

/-! ## Customer Profiler (`customer_profiler.py`) -/

/-- `self.df[self.df['Sender_account'] == account]` -/
def sentTxns (df : List Transaction) (account : ℕ) : List Transaction :=
  df.filter (fun t => t.senderAccount == account)

/-- `self.df[self.df['Receiver_account'] == account]` -/
def recvTxns (df : List Transaction) (account : ℕ) : List Transaction :=
  df.filter (fun t => t.receiverAccount == account)

/-- `all_txns = pd.concat([sent_txns, recv_txns])` -/
def allTxns (df : List Transaction) (account : ℕ) : List Transaction :=
  sentTxns df account ++ recvTxns df account

/-- pandas `Series.max()` over a nonempty amount list. -/
def listMax (xs : List ℚ) : ℚ :=
  xs.foldl max (xs.headD 0)

/-- pandas `Series.min()` over a nonempty amount list. -/
def listMin (xs : List ℚ) : ℚ :=
  xs.foldl min (xs.headD 0)

/-- `_count_cross_border_transactions`: mismatched bank locations, counted on
the sent subset plus the received subset. -/
def countCrossBorder (sent recv : List Transaction) : ℕ :=
  (sent.filter (fun t => !(t.senderLoc == t.receiverLoc))).length +
    (recv.filter (fun t => !(t.senderLoc == t.receiverLoc))).length

/-- the `high_risk` literal from `_count_high_risk_locations` -/
def highRiskLocations : List String := ["AE-DXB", "HK-HKG"]

/-- `_count_high_risk_locations` -/
def countHighRisk (txns : List Transaction) : ℕ :=
  (txns.filter (fun t =>
    highRiskLocations.contains t.senderLoc || highRiskLocations.contains t.receiverLoc)).length

/-- `_count_structuring`: amount in the band `[9000, 10000)`. -/
def countStructuring (txns : List Transaction) : ℕ :=
  (txns.filter (fun t => decide (9000 ≤ t.amount ∧ t.amount < 10000))).length

/-- `_count_rapid_transactions`: `groupby('Date').size().max() - 1`,
zero when fewer than two transactions. -/
def countRapid (txns : List Transaction) : ℕ :=
  if txns.length < 2 then 0
  else (((txns.map (fun t => t.date)).dedup).map
    (fun d => (txns.filter (fun t => t.date == d)).length)).foldl max 0 - 1

/-- `_count_unique_counterparties` -/
def countUniqueCounterparties (sent recv : List Transaction) : ℕ :=
  ((sent.map (fun t => t.receiverAccount)) ++ (recv.map (fun t => t.senderAccount))).dedup.length

/-- The profile dictionary built by `_create_customer_profile`. -/
structure Profile where
  account : ℕ
  total_transactions : ℕ
  sent_transactions : ℕ
  received_transactions : ℕ
  total_volume : ℚ
  sent_volume : ℚ
  received_volume : ℚ
  avg_transaction : ℚ
  max_transaction : ℚ
  min_transaction : ℚ
  suspicious_transactions : ℕ
  cross_border_count : ℕ
  high_risk_countries : ℕ
  structuring_indicators : ℕ
  rapid_transactions : ℕ
  currencies_used : ℕ
  payment_types_used : ℕ
  unique_counterparties : ℕ
  deriving DecidableEq, Repr

/-- `_create_customer_profile`: `None` when the account has no activity. -/
def createCustomerProfile (df : List Transaction) (account : ℕ) : Option Profile :=
  let sent := sentTxns df account
  let recv := recvTxns df account
  let allT := allTxns df account
  if allT.length = 0 then none
  else some
    { account := account
      total_transactions := allT.length
      sent_transactions := sent.length
      received_transactions := recv.length
      total_volume := (allT.map (fun t => t.amount)).sum
      sent_volume := (sent.map (fun t => t.amount)).sum
      received_volume := (recv.map (fun t => t.amount)).sum
      avg_transaction := (allT.map (fun t => t.amount)).sum / (allT.length : ℚ)
      max_transaction := listMax (allT.map (fun t => t.amount))
      min_transaction := listMin (allT.map (fun t => t.amount))
      suspicious_transactions := (allT.filter (fun t => t.isLaundering)).length
      cross_border_count := countCrossBorder sent recv
      high_risk_countries := countHighRisk allT
      structuring_indicators := countStructuring allT
      rapid_transactions := countRapid allT
      currencies_used := (allT.map (fun t => t.paymentCurrency)).dedup.length
      payment_types_used := (allT.map (fun t => t.paymentType)).dedup.length
      unique_counterparties := countUniqueCounterparties sent recv }

/-- `_calculate_risk_scores`: the weighted sum of five risk factors, the
total capped at 100 (`min(sum(risk_factors), 100)`). -/
def riskScore (p : Profile) : ℚ :=
  let suspRatio : ℚ := (p.suspicious_transactions : ℚ) / ((max p.total_transactions 1 : ℕ) : ℚ)
  let amountTier : ℚ :=
    if 50000 < p.avg_transaction then 20
    else if 20000 < p.avg_transaction then 10
    else 0
  let crossBorderRatio : ℚ :=
    (p.cross_border_count : ℚ) / ((max p.total_transactions 1 : ℕ) : ℚ)
  min (suspRatio * 30 + amountTier + crossBorderRatio * 20 +
        min ((p.high_risk_countries : ℚ) * 5) 15 +
        min ((p.structuring_indicators : ℚ) * 10) 15) 100

/-- Modelled from the spec wording of §4.2 for comparison with `riskScore`:
the five factors with the suspicious and cross-border ratios taken over the
plain transaction count. -/
def riskFactorsSpec (p : Profile) : ℚ :=
  ((p.suspicious_transactions : ℚ) / (p.total_transactions : ℚ)) * 30 +
    (if 50000 < p.avg_transaction then 20
      else if 20000 < p.avg_transaction then 10 else 0) +
    ((p.cross_border_count : ℚ) / (p.total_transactions : ℚ)) * 20 +
    min ((p.high_risk_countries : ℚ) * 5) 15 +
    min ((p.structuring_indicators : ℚ) * 10) 15

/-- `_calculate_risk_scores`: the threshold classification. -/
def riskClassification (score : ℚ) : String :=
  if 70 ≤ score then "HIGH"
  else if 40 ≤ score then "MEDIUM"
  else "LOW"

/-! ## Anomaly Detector (`anomaly_detector.py`) -/

/-- One output row of `_combine_anomaly_results`: the isolation-forest flag
and raw score together with the statistical flag and z-score. -/
structure AnomalyRow where
  isolation_anomaly : Bool
  isolation_score : ℚ
  statistical_anomaly : Bool
  amount_zscore : ℚ
  deriving DecidableEq, Repr

/-- `combined['composite_anomaly']`: logical OR of the two binary flags. -/
def compositeAnomaly (r : AnomalyRow) : Bool :=
  r.isolation_anomaly || r.statistical_anomaly

/-- `combined['anomaly_risk_score']`:
`isolation_anomaly * 50 + statistical_anomaly * 30 + np.clip(-isolation_score * 100, 0, 20)`. -/
def anomalyRiskScore (r : AnomalyRow) : ℚ :=
  (if r.isolation_anomaly then (1 : ℚ) else 0) * 50 +
    (if r.statistical_anomaly then (1 : ℚ) else 0) * 30 +
    min (max (-r.isolation_score * 100) 0) 20

/-! ## ML metrics and model selection (`ml_predictor.py`) -/

/-- True positives of a prediction vector against the held-out labels. -/
def countTP (yTest yPred : List Bool) : ℕ :=
  (yTest.zip yPred).countP (fun p => p.1 && p.2)

/-- False positives. -/
def countFP (yTest yPred : List Bool) : ℕ :=
  (yTest.zip yPred).countP (fun p => !p.1 && p.2)

/-- False negatives. -/
def countFN (yTest yPred : List Bool) : ℕ :=
  (yTest.zip yPred).countP (fun p => p.1 && !p.2)

/-- `sklearn.metrics.accuracy_score`: fraction of matching labels. -/
def accuracyScore (yTest yPred : List Bool) : ℚ :=
  if yTest.length = 0 then 0
  else (((yTest.zip yPred).countP (fun p => p.1 == p.2) : ℕ) : ℚ) / (yTest.length : ℚ)

/-- `precision_score(..., zero_division=0)`: `TP / (TP + FP)`, `0` when the
denominator vanishes. -/
def precisionScore (yTest yPred : List Bool) : ℚ :=
  if countTP yTest yPred + countFP yTest yPred = 0 then 0
  else (countTP yTest yPred : ℚ) / ((countTP yTest yPred + countFP yTest yPred : ℕ) : ℚ)

/-- `recall_score(..., zero_division=0)`: `TP / (TP + FN)`, `0` when the
denominator vanishes. -/
def recallScore (yTest yPred : List Bool) : ℚ :=
  if countTP yTest yPred + countFN yTest yPred = 0 then 0
  else (countTP yTest yPred : ℚ) / ((countTP yTest yPred + countFN yTest yPred : ℕ) : ℚ)

/-- `f1_score(..., zero_division=0)`: `2·TP / (2·TP + FP + FN)`, `0` when the
denominator vanishes (equivalently, zero precision-plus-recall). -/
def f1Score (yTest yPred : List Bool) : ℚ :=
  if 2 * countTP yTest yPred + countFP yTest yPred + countFN yTest yPred = 0 then 0
  else (2 * countTP yTest yPred : ℚ) /
    ((2 * countTP yTest yPred + countFP yTest yPred + countFN yTest yPred : ℕ) : ℚ)

/-- One entry of the `models` dictionary inside `_evaluate_models`: the
candidate name together with its held-out predictions `model.predict(X_test)`. -/
structure EvalCandidate where
  name : String
  preds : List Bool
  deriving DecidableEq, Repr

/-- One iteration of the `_evaluate_models` loop: the isolation-forest
candidate only reports accuracy and never touches the best-model slot; a
supervised candidate replaces the best model exactly when its F1 strictly
exceeds the running `best_score`. -/
def evalStep (yTest : List Bool) (acc : Option String × ℚ) (c : EvalCandidate) :
    Option String × ℚ :=
  if c.name = "isolation_forest_classifier" then acc
  else if acc.2 < f1Score yTest c.preds then (some c.name, f1Score yTest c.preds) else acc

/-- `_evaluate_models`: fold of `evalStep` starting from
`best_model = None, best_score = 0`; the first component is the selected
model (by candidate name), the second the best F1 score. -/
def evaluateModels (cands : List EvalCandidate) (yTest : List Bool) : Option String × ℚ :=
  cands.foldl (evalStep yTest) (none, 0)

/-- Number of distinct classes in a training target column. -/
def numClasses (y : List Bool) : ℕ :=
  y.dedup.length

/-- `_train_multiple_models`: fits `random_forest` (whose fit accepts a
single-class target), then `gradient_boosting`; sklearn's
`GradientBoostingClassifier.fit` validates the encoded target and raises
`ValueError` ("a minimum of 2 classes are required") when it holds fewer
than two classes, so the whole call aborts (`none`); otherwise all three
candidates of the `models` dictionary are trained. -/
def trainMultipleModels (yTrain : List Bool) : Option (List String) :=
  if numClasses yTrain < 2 then none
  else some ["random_forest", "gradient_boosting", "isolation_forest_classifier"]

/-- `train_compliance_model` from candidate training to model selection: an
exception raised inside `_train_multiple_models` propagates to the caller,
so `_evaluate_models` (over the supervised candidates' held-out predictions)
runs only when every candidate was fitted. -/
def trainAndSelect (yTrain yTest predsRF predsGB predsIso : List Bool) :
    Option (Option String) :=
  match trainMultipleModels yTrain with
  | none => none
  | some _ =>
    some (evaluateModels
      [⟨"random_forest", predsRF⟩, ⟨"gradient_boosting", predsGB⟩,
        ⟨"isolation_forest_classifier", predsIso⟩] yTest).1

/-! ## ML predictor state, feature pipeline, prediction and persistence
(`ml_predictor.py`) -/

/-- A fitted `sklearn.preprocessing.LabelEncoder`: the sorted vocabulary of
category strings observed at fit time; a category's code is its index. -/
structure Encoder where
  classes : List String
  deriving DecidableEq, Repr

/-- `LabelEncoder.transform` on a column: all-or-nothing — any value outside
the fitted vocabulary raises `ValueError` (`none`); otherwise every value is
mapped to its index code. -/
def Encoder.transformBatch (e : Encoder) (vs : List String) : Option (List ℕ) :=
  if vs.all (fun v => e.classes.contains v) then
    some (vs.map (fun v => e.classes.indexOf v))
  else none

/-- The `try/except ValueError` around the encoding step in `predict_risk`:
on success the encoded codes, on a raised `ValueError` the whole column is
assigned the scalar fallback `0`. -/
def encodeColumn (e : Encoder) (vs : List String) : List ℚ :=
  match e.transformBatch vs with
  | some codes => codes.map (fun c => (c : ℚ))
  | none => List.replicate vs.length 0

/-- A fitted `StandardScaler`: per-feature mean and scale. -/
structure Scaler where
  mean : List ℚ
  scale : List ℚ
  deriving DecidableEq, Repr

/-- `StandardScaler.transform` on one row: `(x - mean) / scale` per feature;
a feature-count mismatch with the fitted state raises (`none`). -/
def Scaler.transformRow (sc : Scaler) (xs : List ℚ) : Option (List ℚ) :=
  if xs.length = sc.mean.length ∧ sc.scale.length = sc.mean.length then
    some ((xs.zip (sc.mean.zip sc.scale)).map (fun p => (p.1 - p.2.1) / p.2.2))
  else none

/-- An opaque trained classifier: `predict_proba(...)[0][1]` and
`predict(...)[0]` as functions of a numeric feature row. -/
structure Model where
  proba : List ℚ → ℚ
  label : List ℚ → Bool

/-- One candidate's entry of `self.model_metrics` (the dictionary keys are
accuracy, precision, recall, f1_score). -/
structure MetricsRec where
  accuracy : ℚ
  precision : ℚ
  recall_score : ℚ
  f1_score : ℚ
  deriving DecidableEq, Repr

/-- The mutable fields of `MLPredictor` that the serving path reads:
`self.model`, `self.scaler`, `self.label_encoders`, `self.feature_names`,
`self.model_metrics`. -/
structure MLState where
  model : Option Model
  scaler : Scaler
  label_encoders : List (String × Encoder)
  feature_names : List String
  model_metrics : List (String × MetricsRec)

/-- The `ml_package` dictionary written by `save_complete_package`. -/
structure MLPackage where
  model : Model
  scaler : Scaler
  label_encoders : List (String × Encoder)
  feature_names : List String
  model_metrics : List (String × MetricsRec)
  timestamp : String
  n_features : ℕ

/-- the `categorical_features` literal of `_prepare_ml_features`/`predict_risk` -/
def categoricalFeatures : List String :=
  ["Payment_type", "Sender_bank_location", "Receiver_bank_location",
    "Payment_currency", "Received_currency"]

/-- Column access for the five categorical fields. -/
def Transaction.catValue (t : Transaction) (f : String) : String :=
  if f = "Payment_type" then t.paymentType
  else if f = "Sender_bank_location" then t.senderLoc
  else if f = "Receiver_bank_location" then t.receiverLoc
  else if f = "Payment_currency" then t.paymentCurrency
  else t.receivedCurrency

/-- `sender_frequency`: `groupby('Sender_account').transform('count')`
within the input batch. -/
def senderFreq (batch : List Transaction) (t : Transaction) : ℕ :=
  (batch.filter (fun u => u.senderAccount == t.senderAccount)).length

/-- `receiver_frequency` within the input batch. -/
def receiverFreq (batch : List Transaction) (t : Transaction) : ℕ :=
  (batch.filter (fun u => u.receiverAccount == t.receiverAccount)).length

/-- The numeric columns available after `_engineer_features`, as one
name-to-value row.  `log1p` is numpy's `log1p`, kept as a parameter. -/
def engineeredRow (log1p : ℚ → ℚ) (sFreq rFreq : ℕ) (t : Transaction) :
    List (String × ℚ) :=
  [("Sender_account", (t.senderAccount : ℚ)),
    ("Receiver_account", (t.receiverAccount : ℚ)),
    ("Amount", t.amount),
    ("hour", (t.hour : ℚ)),
    ("is_weekend", if 5 ≤ t.weekday then 1 else 0),
    ("is_night_transaction", if 22 ≤ t.hour ∨ t.hour ≤ 5 then 1 else 0),
    ("log_amount", log1p t.amount),
    ("is_round_amount", if (t.amount / 1000).den = 1 then 1 else 0),
    ("is_structuring_amount", if 9000 ≤ t.amount ∧ t.amount < 10000 then 1 else 0),
    ("is_cross_border", if t.senderLoc = t.receiverLoc then 0 else 1),
    ("is_currency_mismatch", if t.paymentCurrency = t.receivedCurrency then 0 else 1),
    ("sender_frequency", (sFreq : ℚ)),
    ("receiver_frequency", (rFreq : ℚ))]

/-- `self.feature_names` as captured by `_prepare_ml_features` on the
training dataset: the numeric engineered columns (pandas bool `is_weekend`
is excluded by `select_dtypes`, the target `Is_laundering` is excluded
explicitly) followed by the five encoded categorical columns. -/
def mlFeatureNames : List String :=
  ["Sender_account", "Receiver_account", "Amount", "hour",
    "is_night_transaction", "log_amount", "is_round_amount",
    "is_structuring_amount", "is_cross_border", "is_currency_mismatch",
    "sender_frequency", "receiver_frequency",
    "Payment_type_encoded", "Sender_bank_location_encoded",
    "Receiver_bank_location_encoded", "Payment_currency_encoded",
    "Received_currency_encoded"]

/-- The feature frame of `predict_risk` after engineering and categorical
encoding: per input row, the engineered numeric columns plus one
`<field>_encoded` column per categorical field with a fitted encoder. -/
def featureRows (st : MLState) (log1p : ℚ → ℚ) (batch : List Transaction) :
    List (List (String × ℚ)) :=
  let encCols : List (String × List ℚ) :=
    categoricalFeatures.filterMap (fun f =>
      match st.label_encoders.lookup f with
      | some e => some (f ++ "_encoded", encodeColumn e (batch.map (fun t => t.catValue f)))
      | none => none)
  batch.enum.map (fun p =>
    engineeredRow log1p (senderFreq batch p.2) (receiverFreq batch p.2) p.2 ++
      encCols.map (fun nc => (nc.1, nc.2.getD p.1 0)))

/-- `X = features[self.feature_names]` for one row: a missing column raises
a pandas `KeyError` (`none`). -/
def selectFeatures (names : List String) (row : List (String × ℚ)) :
    Option (List ℚ) :=
  match names with
  | [] => some []
  | n :: rest =>
    match row.lookup n, selectFeatures rest row with
    | some v, some vs => some (v :: vs)
    | _, _ => none

/-- Column selection followed by `self.scaler.transform` over the whole
batch; any failing row aborts the prediction. -/
def scaleRows (st : MLState) : List (List (String × ℚ)) → Option (List (List ℚ))
  | [] => some []
  | r :: rs =>
    match (selectFeatures st.feature_names r).bind st.scaler.transformRow,
        scaleRows st rs with
    | some x, some xs => some (x :: xs)
    | _, _ => none

/-- The result dictionary of `predict_risk`. -/
structure PredictResult where
  risk_probability : ℚ
  risk_label : String
  risk_score : ℚ
  deriving DecidableEq, Repr

/-- `predict_risk`: fails (`none`) when no model is present, when a feature
column is missing, or when the scaler rejects the row; otherwise returns
probability, label and `probability * 100` computed on the first row. -/
def predict_risk (st : MLState) (log1p : ℚ → ℚ) (batch : List Transaction) :
    Option PredictResult :=
  match st.model with
  | none => none
  | some m =>
    match scaleRows st (featureRows st log1p batch) with
    | none => none
    | some [] => none
    | some (x :: _) =>
      some
        { risk_probability := m.proba x
          risk_label := if m.label x then "High Risk" else "Low Risk"
          risk_score := m.proba x * 100 }

/-- Content of a pickle file on disk: either a deserializable package or
corrupted bytes that make `pickle.load` raise. -/
inductive FileData where
  | pkg (p : MLPackage)
  | corrupt

/-- The file system visible to the persistence layer. -/
def Store : Type := String → Option FileData

/-- One file write. -/
def updateStore (s : Store) (path : String) (d : FileData) : Store :=
  fun q => if q = path then some d else s q

/-- `save_complete_package`: raises `ValueError` (`none`) when no model is
trained, otherwise pickles model, scaler, encoders, feature names, metrics
and timestamp as one artifact. -/
def save_complete_package (store : Store) (path : String) (st : MLState)
    (timestamp : String) : Option Store :=
  match st.model with
  | none => none
  | some m =>
    some (updateStore store path (FileData.pkg
      { model := m
        scaler := st.scaler
        label_encoders := st.label_encoders
        feature_names := st.feature_names
        model_metrics := st.model_metrics
        timestamp := timestamp
        n_features := st.feature_names.length }))

/-- The three observable outcomes of `load_complete_package`: the explicit
"no saved package found" warning (returns `False` before touching the file),
the caught deserialization error report (returns `False` from the `except`
branch), and success (returns `True`). -/
inductive LoadOutcome where
  | notFound
  | loadError
  | success
  deriving DecidableEq, Repr

/-- The boolean actually returned to the caller. -/
def LoadOutcome.toBool : LoadOutcome → Bool
  | .success => true
  | _ => false

/-- `load_complete_package`: checks `os.path.exists` first; a missing file
is the non-fatal not-found outcome, a corrupt file is caught and reported,
and a valid package restores model, scaler, encoders, feature names and
metrics in place. -/
def load_complete_package (store : Store) (path : String) (st : MLState) :
    LoadOutcome × MLState :=
  match store path with
  | none => (LoadOutcome.notFound, st)
  | some FileData.corrupt => (LoadOutcome.loadError, st)
  | some (FileData.pkg p) =>
    (LoadOutcome.success,
      { model := some p.model
        scaler := p.scaler
        label_encoders := p.label_encoders
        feature_names := p.feature_names
        model_metrics := p.model_metrics })

/-- A concrete classifier for witnesses: constant probability 1/2, label 0. -/
def m0 : Model :=
  { proba := fun _ => 1 / 2
    label := fun _ => false }

/-- A concrete trained predictor state for witnesses. -/
def st0 : MLState :=
  { model := some m0
    scaler := { mean := List.replicate 17 0, scale := List.replicate 17 1 }
    label_encoders :=
      [("Payment_type", ⟨["Cash Deposit", "Cross-border"]⟩),
        ("Sender_bank_location", ⟨["UK"]⟩),
        ("Receiver_bank_location", ⟨["UK"]⟩),
        ("Payment_currency", ⟨["UK pounds"]⟩),
        ("Received_currency", ⟨["UK pounds"]⟩)]
    feature_names := mlFeatureNames
    model_metrics := [] }

/-- An untrained predictor state. -/
def stEmpty : MLState :=
  { model := none, scaler := { mean := [], scale := [] }
    label_encoders := [], feature_names := [], model_metrics := [] }

/-- An empty file system. -/
def store0 : Store := fun _ => none

/-- The file system after `save_complete_package` writes `st0`'s package. -/
def savedStore0 : Store :=
  updateStore store0 "models/ml_package.pkl" (FileData.pkg
    { model := m0
      scaler := st0.scaler
      label_encoders := st0.label_encoders
      feature_names := st0.feature_names
      model_metrics := st0.model_metrics
      timestamp := "2024-01-01 00:00:00"
      n_features := st0.feature_names.length })

/-- A concrete self-transaction (sender account = receiver account = 7),
used to instantiate theorems on concrete inputs. -/
def tSelf : Transaction :=
  { hour := 2, minute := 30, weekday := 6, date := "2023-01-07"
    senderAccount := 7, receiverAccount := 7, amount := 9500
    paymentCurrency := "UK pounds", receivedCurrency := "UK pounds"
    senderLoc := "UK", receiverLoc := "UK", paymentType := "Cash Deposit"
    isLaundering := true }

/-- A concrete transaction whose payment type "Wire Transfer" is absent from
`st0`'s fitted Payment_type vocabulary. -/
def tUnknown : Transaction :=
  { hour := 14, minute := 5, weekday := 2, date := "2023-01-10"
    senderAccount := 8, receiverAccount := 9, amount := 120
    paymentCurrency := "UK pounds", receivedCurrency := "UK pounds"
    senderLoc := "UK", receiverLoc := "UK", paymentType := "Wire Transfer"
    isLaundering := false }

end AML

namespace AML

/-! ## Helper lemmas -/

/-- The F1 score is never negative. -/
theorem f1Score_nonneg (yTest yPred : List Bool) : 0 ≤ f1Score yTest yPred := by
  unfold f1Score
  split
  · exact le_refl 0
  · exact div_nonneg (by positivity) (by positivity)

/-- Full characterization of the `_evaluate_models` selection loop from an
arbitrary accumulator: either no supervised candidate strictly beats the
running best score and the accumulator survives, or the result is the
first-seen supervised candidate attaining the maximal F1 score above it. -/
theorem foldl_evalStep_characterization (yTest : List Bool) (cands : List EvalCandidate) :
    ∀ (a : Option String) (s : ℚ),
      (List.foldl (evalStep yTest) (a, s) cands = (a, s) ∧
        ∀ c ∈ cands, c.name ≠ "isolation_forest_classifier" →
          f1Score yTest c.preds ≤ s) ∨
      (∃ pre c post, cands = pre ++ c :: post ∧
        c.name ≠ "isolation_forest_classifier" ∧
        s < f1Score yTest c.preds ∧
        List.foldl (evalStep yTest) (a, s) cands = (some c.name, f1Score yTest c.preds) ∧
        (∀ d ∈ pre, d.name ≠ "isolation_forest_classifier" →
          f1Score yTest d.preds < f1Score yTest c.preds) ∧
        (∀ d ∈ post, d.name ≠ "isolation_forest_classifier" →
          f1Score yTest d.preds ≤ f1Score yTest c.preds)) := by
  induction cands with
  | nil =>
    intro a s
    exact Or.inl ⟨rfl, by simp⟩
  | cons c rest ih =>
    intro a s
    by_cases hiso : c.name = "isolation_forest_classifier"
    · have hstep : evalStep yTest (a, s) c = (a, s) := by simp [evalStep, hiso]
      rcases ih a s with ⟨heq, hall⟩ | ⟨pre, c0, post, hdec, hc0, hs0, hfold, hpre, hpost⟩
      · left
        refine ⟨by simpa [hstep] using heq, ?_⟩
        intro d hd hname
        rcases List.mem_cons.mp hd with h | h
        · exact absurd (h ▸ hiso) hname
        · exact hall d h hname
      · right
        refine ⟨c :: pre, c0, post, by simp [hdec], hc0, hs0,
          by simpa [hstep] using hfold, ?_, hpost⟩
        intro d hd hname
        rcases List.mem_cons.mp hd with h | h
        · exact absurd (h ▸ hiso) hname
        · exact hpre d h hname
    · by_cases hlt : s < f1Score yTest c.preds
      · have hstep : evalStep yTest (a, s) c = (some c.name, f1Score yTest c.preds) := by
          simp [evalStep, hiso, hlt]
        rcases ih (some c.name) (f1Score yTest c.preds) with
          ⟨heq, hall⟩ | ⟨pre, c0, post, hdec, hc0, hs0, hfold, hpre, hpost⟩
        · right
          exact ⟨[], c, rest, by simp, hiso, hlt,
            by simpa [hstep] using heq, by simp, hall⟩
        · right
          refine ⟨c :: pre, c0, post, by simp [hdec], hc0, lt_trans hlt hs0,
            by simpa [hstep] using hfold, ?_, hpost⟩
          intro d hd hname
          rcases List.mem_cons.mp hd with h | h
          · exact h ▸ hs0
          · exact hpre d h hname
      · have hstep : evalStep yTest (a, s) c = (a, s) := by
          simp [evalStep, hiso, hlt]
        rcases ih a s with ⟨heq, hall⟩ | ⟨pre, c0, post, hdec, hc0, hs0, hfold, hpre, hpost⟩
        · left
          refine ⟨by simpa [hstep] using heq, ?_⟩
          intro d hd hname
          rcases List.mem_cons.mp hd with h | h
          · exact h ▸ le_of_not_lt hlt
          · exact hall d h hname
        · right
          refine ⟨c :: pre, c0, post, by simp [hdec], hc0, hs0,
            by simpa [hstep] using hfold, ?_, hpost⟩
          intro d hd hname
          rcases List.mem_cons.mp hd with h | h
          · exact h ▸ lt_of_le_of_lt (le_of_not_lt hlt) hs0
          · exact hpre d h hname

/-! ## Theorems: customer profiler -/

/-- C10: a transaction whose sender equals its receiver appears in both the
sent and the received subset, so the concatenated activity set counts it
twice and the volume/amount statistics are computed over the duplicate. -/
theorem c10_self_transaction_double_count (a : ℕ) (t : Transaction)
    (df : List Transaction) (hs : t.senderAccount = a) (hr : t.receiverAccount = a) :
    (allTxns df a).count t = 2 * df.count t ∧
      (createCustomerProfile [t] a).map Profile.total_transactions = some 2 ∧
      (createCustomerProfile [t] a).map Profile.sent_transactions = some 1 ∧
      (createCustomerProfile [t] a).map Profile.received_transactions = some 1 ∧
      (createCustomerProfile [t] a).map Profile.total_volume = some (2 * t.amount) ∧
      (createCustomerProfile [t] a).map Profile.avg_transaction = some t.amount ∧
      (createCustomerProfile [t] a).map Profile.max_transaction = some t.amount ∧
      (createCustomerProfile [t] a).map Profile.min_transaction = some t.amount := by
  have hsb : (t.senderAccount == a) = true := by simp [hs]
  have hrb : (t.receiverAccount == a) = true := by simp [hr]
  refine ⟨?_, ?_, ?_, ?_, ?_, ?_, ?_, ?_⟩
  · unfold allTxns sentTxns recvTxns
    rw [List.count_append,
      @List.count_filter _ _ _ (fun x => x.senderAccount == a) t df hsb,
      @List.count_filter _ _ _ (fun x => x.receiverAccount == a) t df hrb]
    ring
  · simp [createCustomerProfile, allTxns, sentTxns, recvTxns, List.filter, hsb, hrb]
  · simp [createCustomerProfile, allTxns, sentTxns, recvTxns, List.filter, hsb, hrb]
  · simp [createCustomerProfile, allTxns, sentTxns, recvTxns, List.filter, hsb, hrb]
  · simp [createCustomerProfile, allTxns, sentTxns, recvTxns, List.filter, hsb, hrb]
    ring
  · simp [createCustomerProfile, allTxns, sentTxns, recvTxns, List.filter, hsb, hrb]
  · simp [createCustomerProfile, allTxns, sentTxns, recvTxns, List.filter, hsb, hrb,
      listMax]
  · simp [createCustomerProfile, allTxns, sentTxns, recvTxns, List.filter, hsb, hrb,
      listMin]

/-- C5: for every customer profile the risk score is the capped sum of the
five documented factors and always lies in `[0, 100]`. -/
theorem c5_risk_score_formula_and_bounds (p : Profile) :
    0 ≤ riskScore p ∧ riskScore p ≤ 100 ∧
      (1 ≤ p.total_transactions → riskScore p = min (riskFactorsSpec p) 100) := by
  have hden : (0 : ℚ) ≤ ((max p.total_transactions 1 : ℕ) : ℚ) := by positivity
  have h1 : (0 : ℚ) ≤ (p.suspicious_transactions : ℚ) / ((max p.total_transactions 1 : ℕ) : ℚ) :=
    div_nonneg (by positivity) hden
  have h2 : (0 : ℚ) ≤ (p.cross_border_count : ℚ) / ((max p.total_transactions 1 : ℕ) : ℚ) :=
    div_nonneg (by positivity) hden
  have h3 : (0 : ℚ) ≤ min ((p.high_risk_countries : ℚ) * 5) 15 :=
    le_min (by positivity) (by norm_num)
  have h4 : (0 : ℚ) ≤ min ((p.structuring_indicators : ℚ) * 10) 15 :=
    le_min (by positivity) (by norm_num)
  have htier : (0 : ℚ) ≤
      (if 50000 < p.avg_transaction then (20 : ℚ)
        else if 20000 < p.avg_transaction then 10 else 0) := by
    split
    · norm_num
    · split <;> norm_num
  refine ⟨?_, ?_, ?_⟩
  · unfold riskScore
    refine le_min ?_ (by norm_num)
    nlinarith [h1, h2, h3, h4, htier]
  · exact min_le_right _ _
  · intro htot
    have hmax : max p.total_transactions 1 = p.total_transactions := Nat.max_eq_left htot
    unfold riskScore riskFactorsSpec
    rw [hmax]

/-- C5 witness: the theorem instantiated at a concrete profile. -/
theorem c5_witness :
    0 ≤ riskScore ⟨7, 4, 2, 2, 80000, 40000, 40000, 20000, 30000, 10000, 2, 1, 1, 1, 0, 1, 1, 3⟩ ∧
      riskScore ⟨7, 4, 2, 2, 80000, 40000, 40000, 20000, 30000, 10000, 2, 1, 1, 1, 0, 1, 1, 3⟩ ≤ 100 ∧
      riskScore ⟨7, 4, 2, 2, 80000, 40000, 40000, 20000, 30000, 10000, 2, 1, 1, 1, 0, 1, 1, 3⟩ =
        min (riskFactorsSpec ⟨7, 4, 2, 2, 80000, 40000, 40000, 20000, 30000, 10000, 2, 1, 1, 1, 0, 1, 1, 3⟩) 100 := by
  have h := c5_risk_score_formula_and_bounds
    ⟨7, 4, 2, 2, 80000, 40000, 40000, 20000, 30000, 10000, 2, 1, 1, 1, 0, 1, 1, 3⟩
  exact ⟨h.1, h.2.1, h.2.2 (by norm_num)⟩

/-- C6: risk classification is exactly threshold-determined: `score ≥ 70`
gives HIGH, `40 ≤ score < 70` gives MEDIUM, `score < 40` gives LOW. -/
theorem c6_classification_thresholds (s : ℚ) :
    (70 ≤ s → riskClassification s = "HIGH") ∧
      (40 ≤ s → s < 70 → riskClassification s = "MEDIUM") ∧
      (s < 40 → riskClassification s = "LOW") := by
  refine ⟨fun h => ?_, fun h1 h2 => ?_, fun h => ?_⟩
  · simp [riskClassification, h]
  · simp [riskClassification, h1, not_le.mpr h2]
  · have h1 : ¬(70 : ℚ) ≤ s := not_le.mpr (lt_trans h (by norm_num))
    have h2 : ¬(40 : ℚ) ≤ s := not_le.mpr h
    simp [riskClassification, h1, h2]

/-- C6 witness: the boundary cases named by the claim, including
score = 70 → HIGH and score = 40 → MEDIUM. -/
theorem c6_witness :
    riskClassification 70 = "HIGH" ∧ riskClassification 40 = "MEDIUM" ∧
      riskClassification (69999 / 1000) = "MEDIUM" ∧
      riskClassification (39999 / 1000) = "LOW" :=
  ⟨(c6_classification_thresholds 70).1 (by norm_num),
    (c6_classification_thresholds 40).2.1 (by norm_num) (by norm_num),
    (c6_classification_thresholds (69999 / 1000)).2.1 (by norm_num) (by norm_num),
    (c6_classification_thresholds (39999 / 1000)).2.2 (by norm_num)⟩

/-! ## Theorems: anomaly detector -/

/-- C7: the composite anomaly risk score equals
`50·density_flag + 30·statistical_flag + clamp(-density_score·100, 0, 20)`
and always lies in `[0, 100]`. -/
theorem c7_anomaly_risk_score (r : AnomalyRow) :
    anomalyRiskScore r =
        50 * (if r.isolation_anomaly then (1 : ℚ) else 0) +
          30 * (if r.statistical_anomaly then (1 : ℚ) else 0) +
          min (max (-r.isolation_score * 100) 0) 20 ∧
      0 ≤ anomalyRiskScore r ∧ anomalyRiskScore r ≤ 100 := by
  have hc0 : (0 : ℚ) ≤ min (max (-r.isolation_score * 100) 0) 20 :=
    le_min (le_max_right _ _) (by norm_num)
  have hc20 : min (max (-r.isolation_score * 100) 0) 20 ≤ 20 := min_le_right _ _
  unfold anomalyRiskScore
  refine ⟨by ring, ?_, ?_⟩
  · cases hiso : r.isolation_anomaly <;> cases hstat : r.statistical_anomaly <;>
      simp only [reduceIte, Bool.false_eq_true] <;> linarith
  · cases hiso : r.isolation_anomaly <;> cases hstat : r.statistical_anomaly <;>
      simp only [reduceIte, Bool.false_eq_true] <;> linarith

/-- C10 witness: the double-counting theorem instantiated at the concrete
self-transaction `tSelf` (account 7). -/
theorem c10_witness :
    (allTxns [tSelf] 7).count tSelf = 2 * ([tSelf].count tSelf) ∧
      (createCustomerProfile [tSelf] 7).map Profile.total_transactions = some 2 ∧
      (createCustomerProfile [tSelf] 7).map Profile.total_volume = some 19000 := by
  have h := c10_self_transaction_double_count 7 tSelf [tSelf] rfl rfl
  refine ⟨h.1, h.2.1, ?_⟩
  have hv := h.2.2.2.2.1
  rw [hv]
  norm_num [tSelf]

/-! ## Theorems: model training, evaluation and selection -/

/-- A list all of whose elements equal `b` deduplicates to `[]` or `[b]`. -/
theorem single_class_dedup (b : Bool) (y : List Bool) (h : ∀ x ∈ y, x = b) :
    y.dedup = [] ∨ y.dedup = [b] := by
  induction y with
  | nil => exact Or.inl rfl
  | cons a l ih =>
    have ha : a = b := h a (by simp)
    have hl : ∀ x ∈ l, x = b := fun x hx => h x (by simp [hx])
    subst ha
    by_cases hm : a ∈ l
    · rw [List.dedup_cons_of_mem hm]
      exact ih hl
    · rw [List.dedup_cons_of_not_mem hm]
      right
      rcases ih hl with h0 | h1
      · rw [h0]
      · have hmem : a ∈ l := by
          have h2 : a ∈ l.dedup := by
            rw [h1]
            simp
          simpa [List.mem_dedup] using h2
        exact absurd hmem hm

/-- C1: the code at the failing input — when the training target holds a
single class, `GradientBoostingClassifier.fit` raises `ValueError` inside
`_train_multiple_models`, so `train_compliance_model` aborts before
`_evaluate_models` runs: no metrics are computed and no model is selected,
whereas the claim requires the degenerate case to complete without raising
with zero scores and a selected first candidate. -/
theorem c1_single_class_training_raises (b : Bool) (yTrain : List Bool)
    (h : ∀ x ∈ yTrain, x = b) (yTest predsRF predsGB predsIso : List Bool) :
    trainMultipleModels yTrain = none ∧
      trainAndSelect yTrain yTest predsRF predsGB predsIso = none := by
  have hnum : numClasses yTrain < 2 := by
    unfold numClasses
    rcases single_class_dedup b yTrain h with h0 | h1
    · rw [h0]
      norm_num
    · rw [h1]
      norm_num
  have ht : trainMultipleModels yTrain = none := by
    unfold trainMultipleModels
    rw [if_pos hnum]
  refine ⟨ht, ?_⟩
  unfold trainAndSelect
  rw [ht]

/-- C1 witness: the abort at a concrete all-negative 3-row target. -/
theorem c1_witness :
    trainMultipleModels (List.replicate 3 false) = none ∧
      trainAndSelect (List.replicate 3 false) [false] [false] [false] [false] = none :=
  c1_single_class_training_raises false (List.replicate 3 false)
    (by simp) [false] [false] [false] [false]

/-- C2 counterexample: when both supervised candidates tie at F1 = 0, the
claimed tie rule would select the first-seen candidate `random_forest`, but
`_evaluate_models` selects no model at all. -/
theorem c2_counterexample :
    f1Score [false, false] [false, false] = 0 ∧
      (evaluateModels
        [⟨"random_forest", [false, false]⟩,
          ⟨"gradient_boosting", [false, false]⟩]
        [false, false]).1 = none := by
  constructor
  · decide
  · decide

/-- C2 (amended): whenever a model is selected it is a supervised candidate
(never `isolation_forest_classifier`) with strictly positive F1, maximal
among supervised candidates, and first-seen among the maximizers; when every
supervised candidate has F1 = 0 no model is selected (`None`). -/
theorem c2_selection_rule (cands : List EvalCandidate) (yTest : List Bool) :
    ((evaluateModels cands yTest).1 = none →
      ∀ c ∈ cands, c.name ≠ "isolation_forest_classifier" →
        f1Score yTest c.preds = 0) ∧
    (∀ nm, (evaluateModels cands yTest).1 = some nm →
      nm ≠ "isolation_forest_classifier" ∧
      ∃ pre c post, cands = pre ++ c :: post ∧ c.name = nm ∧
        0 < f1Score yTest c.preds ∧
        (∀ d ∈ pre, d.name ≠ "isolation_forest_classifier" →
          f1Score yTest d.preds < f1Score yTest c.preds) ∧
        (∀ d ∈ post, d.name ≠ "isolation_forest_classifier" →
          f1Score yTest d.preds ≤ f1Score yTest c.preds)) := by
  rcases foldl_evalStep_characterization yTest cands none 0 with
    ⟨heq, hall⟩ | ⟨pre, c0, post, hdec, hc0, hs0, hfold, hpre, hpost⟩
  · constructor
    · intro _ c hc hname
      exact le_antisymm (hall c hc hname) (f1Score_nonneg yTest c.preds)
    · intro nm hnm
      rw [show evaluateModels cands yTest = (none, 0) from heq] at hnm
      exact absurd hnm (by simp)
  · constructor
    · intro hnone
      rw [show evaluateModels cands yTest = (some c0.name, f1Score yTest c0.preds)
        from hfold] at hnone
      exact absurd hnone (by simp)
    · intro nm hnm
      rw [show evaluateModels cands yTest = (some c0.name, f1Score yTest c0.preds)
        from hfold] at hnm
      have hname : c0.name = nm := by
        simpa using hnm
      exact ⟨hname ▸ hc0, pre, c0, post, hdec, hname, hs0, hpre, hpost⟩

/-- C2 witness: the selection rule applied at a concrete run — a single
supervised candidate with zero F1 yields no selected model. -/
theorem c2_witness : f1Score [false] [false] = 0 :=
  (c2_selection_rule [⟨"random_forest", [false]⟩] [false]).1 (by decide)
    ⟨"random_forest", [false]⟩ (by simp) (by decide)

/-! ## Theorems: persistence and serving -/

/-- C3: saving the complete package and loading it back restores exactly the
model, scaler, label encoders and feature names the serving path reads, so
predicting after the round trip yields the same result — in particular the
same `risk_probability` — as predicting with the in-memory trained state. -/
theorem c3_package_roundtrip (st stPrior : MLState) (m : Model) (store : Store)
    (path timestamp : String) (log1p : ℚ → ℚ) (batch : List Transaction)
    (hm : st.model = some m) :
    ∃ store2, save_complete_package store path st timestamp = some store2 ∧
      (load_complete_package store2 path stPrior).1 = LoadOutcome.success ∧
      predict_risk (load_complete_package store2 path stPrior).2 log1p batch =
        predict_risk st log1p batch := by
  rcases st with ⟨mo, sc, le, fn, mm⟩
  have hm2 : mo = some m := hm
  subst hm2
  refine ⟨_, rfl, ?_, ?_⟩
  · simp [load_complete_package, updateStore]
  · simp [load_complete_package, updateStore]

/-- C3 witness: the round trip at a concrete trained state, store and
transaction. -/
theorem c3_witness :
    (load_complete_package savedStore0 "models/ml_package.pkl" stEmpty).1 =
        LoadOutcome.success ∧
      predict_risk (load_complete_package savedStore0 "models/ml_package.pkl" stEmpty).2
          (fun _ => 0) [tSelf] =
        predict_risk st0 (fun _ => 0) [tSelf] := by
  obtain ⟨s2, h1, h2, h3⟩ :=
    c3_package_roundtrip st0 stEmpty m0 store0 "models/ml_package.pkl"
      "2024-01-01 00:00:00" (fun _ => 0) [tSelf] rfl
  have h0 : save_complete_package store0 "models/ml_package.pkl" st0
      "2024-01-01 00:00:00" = some savedStore0 := rfl
  rw [h0] at h1
  injection h1 with h1
  subst h1
  exact ⟨h2, h3⟩

/-- C4: loading from a path with no file yields the explicit not-found
outcome with the state untouched; loading an existing but non-deserializable
file yields the caught load-error outcome, distinct from not-found; both are
non-fatal (the caller receives `False`). -/
theorem c4_load_error_taxonomy (store : Store) (path : String) (st : MLState) :
    (store path = none →
      load_complete_package store path st = (LoadOutcome.notFound, st)) ∧
      (store path = some FileData.corrupt →
        load_complete_package store path st = (LoadOutcome.loadError, st)) ∧
      LoadOutcome.notFound ≠ LoadOutcome.loadError ∧
      LoadOutcome.notFound.toBool = false ∧ LoadOutcome.loadError.toBool = false := by
  refine ⟨fun h => ?_, fun h => ?_, by decide, rfl, rfl⟩
  · unfold load_complete_package
    rw [h]
  · unfold load_complete_package
    rw [h]

/-- C4 witness: both failure outcomes at a concrete path and state. -/
theorem c4_witness :
    load_complete_package store0 "missing.pkl" stEmpty =
        (LoadOutcome.notFound, stEmpty) ∧
      load_complete_package (fun _ => some FileData.corrupt) "bad.pkl" stEmpty =
        (LoadOutcome.loadError, stEmpty) :=
  ⟨(c4_load_error_taxonomy store0 "missing.pkl" stEmpty).1 rfl,
    (c4_load_error_taxonomy (fun _ => some FileData.corrupt) "bad.pkl" stEmpty).2.1 rfl⟩

/-- `List.getD` of an all-zero column is zero at every index. -/
theorem getD_replicate_zero (n i : ℕ) : (List.replicate n (0 : ℚ)).getD i 0 = 0 := by
  rcases Nat.lt_or_ge i n with h | h
  · simp [List.getD, List.get?_eq_getElem?, List.getElem?_replicate, h]
  · simp [List.getD, List.get?_eq_getElem?, List.getElem?_replicate, Nat.not_lt.mpr h]

/-- If any value of a column is outside the fitted vocabulary, the caught
`ValueError` turns the whole encoded column into zeros. -/
theorem encodeColumn_unseen (e : Encoder) (vs : List String)
    (h : ∃ v ∈ vs, v ∉ e.classes) :
    encodeColumn e vs = List.replicate vs.length 0 := by
  obtain ⟨v, hv, hn⟩ := h
  have hall : vs.all (fun v => e.classes.contains v) = false := by
    rw [List.all_eq_false]
    exact ⟨v, hv, by simpa using hn⟩
  unfold encodeColumn Encoder.transformBatch
  rw [hall]
  simp

/-- C8: predicting a single transaction carrying a payment type outside the
fitted vocabulary does not raise: the encoded Payment_type feature resolves
to the fallback code 0, and the returned result is well-formed — probability
in `[0,1]`, a High/Low Risk label, and `risk_score = probability * 100`. -/
theorem c8_unseen_category_prediction
    (m : Model) (μ σ : List ℚ) (e1 e2 e3 e4 e5 : Encoder)
    (mets : List (String × MetricsRec)) (log1p : ℚ → ℚ) (t : Transaction)
    (hμ : μ.length = 17) (hσ : σ.length = 17)
    (hp : ∀ x, 0 ≤ m.proba x ∧ m.proba x ≤ 1)
    (hunseen : e1.classes.contains t.paymentType = false) :
    ∃ r,
      predict_risk
        { model := some m, scaler := ⟨μ, σ⟩,
          label_encoders := [("Payment_type", e1), ("Sender_bank_location", e2),
            ("Receiver_bank_location", e3), ("Payment_currency", e4),
            ("Received_currency", e5)],
          feature_names := mlFeatureNames, model_metrics := mets }
        log1p [t] = some r ∧
      0 ≤ r.risk_probability ∧ r.risk_probability ≤ 1 ∧
      r.risk_score = r.risk_probability * 100 ∧
      (r.risk_label = "High Risk" ∨ r.risk_label = "Low Risk") ∧
      (∀ row ∈ featureRows
        { model := some m, scaler := ⟨μ, σ⟩,
          label_encoders := [("Payment_type", e1), ("Sender_bank_location", e2),
            ("Receiver_bank_location", e3), ("Payment_currency", e4),
            ("Received_currency", e5)],
          feature_names := mlFeatureNames, model_metrics := mets } log1p [t],
        row.lookup "Payment_type_encoded" = some 0) := by
  have h2 : t.paymentType ∉ e1.classes := by simpa using hunseen
  simp [predict_risk, featureRows, categoricalFeatures, List.filterMap,
    List.lookup, List.enum, List.enumFrom, engineeredRow,
    scaleRows, selectFeatures, mlFeatureNames, Scaler.transformRow, hμ, hσ,
    Transaction.catValue, encodeColumn, Encoder.transformBatch, h2]
  exact ⟨(hp _).1, (hp _).2⟩

/-- C8 witness: prediction succeeds on the concrete trained state `st0` for
the concrete transaction `tUnknown` whose payment type is unseen. -/
theorem c8_witness : (predict_risk st0 (fun _ => 0) [tUnknown]).isSome = true := by
  obtain ⟨r, hr, h0, h1, hsc, hlab, hrow⟩ :=
    c8_unseen_category_prediction m0 (List.replicate 17 0) (List.replicate 17 1)
      ⟨["Cash Deposit", "Cross-border"]⟩ ⟨["UK"]⟩ ⟨["UK"]⟩ ⟨["UK pounds"]⟩
      ⟨["UK pounds"]⟩ [] (fun _ => 0) tUnknown rfl rfl
      (fun _ => ⟨by norm_num [m0], by norm_num [m0]⟩) (by decide)
  rw [show predict_risk st0 (fun _ => (0 : ℚ)) [tUnknown] = some r from hr]
  rfl

/-- C9: in `predict_risk` on a batch, one single value of a categorical
field outside that field's fitted vocabulary makes the caught `ValueError`
set the encoded column to 0 for every row of the batch — including rows
whose own values were seen at training time. -/
theorem c9_batch_unseen_zeroes_whole_column
    (mo : Option Model) (sc : Scaler) (e1 e2 e3 e4 e5 e : Encoder)
    (fns : List String) (mets : List (String × MetricsRec))
    (log1p : ℚ → ℚ) (batch : List Transaction) (f : String)
    (hf : f ∈ categoricalFeatures)
    (he : List.lookup f
      [("Payment_type", e1), ("Sender_bank_location", e2),
        ("Receiver_bank_location", e3), ("Payment_currency", e4),
        ("Received_currency", e5)] = some e)
    (hunseen : ∃ v ∈ batch.map (fun u => u.catValue f), v ∉ e.classes) :
    ∀ row ∈ featureRows
      { model := mo, scaler := sc,
        label_encoders := [("Payment_type", e1), ("Sender_bank_location", e2),
          ("Receiver_bank_location", e3), ("Payment_currency", e4),
          ("Received_currency", e5)],
        feature_names := fns, model_metrics := mets } log1p batch,
      row.lookup (f ++ "_encoded") = some 0 := by
  simp only [categoricalFeatures, List.mem_cons, List.not_mem_nil, or_false] at hf
  rcases hf with rfl | rfl | rfl | rfl | rfl <;>
  · simp [List.lookup] at he
    subst he
    have hcol := encodeColumn_unseen _ _ hunseen
    intro row hrow
    simp only [featureRows, categoricalFeatures, List.filterMap, List.lookup,
      List.mem_map] at hrow
    obtain ⟨p, hp2, rfl⟩ := hrow
    simp [List.lookup, engineeredRow, hcol, List.length_map, getD_replicate_zero]

/-- C9 witness: in the two-row batch `[tSelf, tUnknown]` only the second
row's payment type is unseen, yet the first row's encoded Payment_type is
also 0. -/
theorem c9_witness :
    ((featureRows st0 (fun _ => 0) [tSelf, tUnknown]).get ⟨0, by decide⟩).lookup
      "Payment_type_encoded" = some 0 := by
  exact c9_batch_unseen_zeroes_whole_column (some m0) st0.scaler
    ⟨["Cash Deposit", "Cross-border"]⟩ ⟨["UK"]⟩ ⟨["UK"]⟩ ⟨["UK pounds"]⟩
    ⟨["UK pounds"]⟩ ⟨["Cash Deposit", "Cross-border"]⟩ mlFeatureNames []
    (fun _ => 0) [tSelf, tUnknown] "Payment_type" (by decide) rfl (by decide)
    _ (List.get_mem _ 0 _)

end AML
